import Mathlib

/-!
Verification development for the ssr-tankstack repository: a shallow
embedding, in Lean 4, of the per-request SSR dispatch pipeline
(server.ts), the server render entry point (src/entry-server.tsx), the
router factory (src/router.tsx), and the repository route
(src/routes/repos.$username.tsx), together with theorems settling the
specification claims about them.
-/

set_option autoImplicit false

namespace SsrTankstack

/-! ## String occurrence and substitution machinery

JavaScript `String.prototype.replace` with a string pattern replaces only
the FIRST occurrence of the pattern.  We model strings as their character
lists and define occurrence counting and first-occurrence replacement.
-/

/-- Number of positions of `s` at which `pat` occurs as a substring
(occurrences at distinct start positions are all counted). -/
def countOcc (s pat : List Char) : Nat :=
  match s with
  | [] => 0
  | _ :: rest => (if pat.isPrefixOf s then 1 else 0) + countOcc rest pat

/-- Replace the first occurrence of `pat` in `s` by `rep`, following the
semantics of JavaScript `s.replace(pat, rep)` with a string pattern: if
`pat` does not occur, `s` is returned unchanged; an empty pattern matches
at position 0. -/
def replaceFirst (s pat rep : List Char) : List Char :=
  match s with
  | [] => if pat = [] then rep else []
  | c :: rest =>
    if pat.isPrefixOf (c :: rest) then rep ++ (c :: rest).drop pat.length
    else c :: replaceFirst rest pat rep

/-- Boolean test: does `pat` occur somewhere in `s`? -/
def hasOcc (s pat : List Char) : Bool :=
  countOcc s pat != 0

/-- String-level wrapper for `countOcc`. -/
def strCountOcc (s pat : String) : Nat :=
  countOcc s.data pat.data

/-- String-level wrapper for `hasOcc`. -/
def strHasOcc (s pat : String) : Bool :=
  hasOcc s.data pat.data

/-- String-level wrapper for `replaceFirst`: the model of the
JavaScript expression `s.replace(pat, rep)` used in server.ts line 103. -/
def strReplaceFirst (s pat rep : String) : String :=
  ⟨replaceFirst s.data pat.data rep.data⟩

/-! ## HTTP model -/

/-- HTTP request methods relevant to routing.  HEAD is deliberately
absent: Express derives HEAD responses from GET handlers, which is
outside this model. -/
inductive Method where
  | GET
  | POST
  | PUT
  | PATCH
  | DELETE
  | OPTIONS
deriving DecidableEq, Repr

/-- An incoming Express request (`req`): the method, the original URL
(path plus query, `req.originalUrl`), and the headers and body, which the
SSR handler never inspects. -/
structure IncomingRequest where
  method : Method
  originalUrl : String
  headers : List (String × String)
  body : String
deriving DecidableEq, Repr

/-- The Express response produced by the handler: status code, the
explicitly set Content-Type header (the 500 path of server.ts does not
set one explicitly), and the body sent. -/
structure HttpResponse where
  status : Nat
  contentType : Option String
  body : String
deriving DecidableEq, Repr

/-- A web-standard `Response` object as constructed inside the render
callback of src/entry-server.tsx (lines 129 to 134). -/
structure WebResponse where
  status : Nat
  contentType : Option String
  body : String
deriving DecidableEq, Repr

/-- A web-standard `Request` object as synthesized by server.ts
(lines 78 and 92): only a URL is supplied to the constructor, so the
method defaults to GET and no headers or body are carried. -/
structure SynthRequest where
  url : String
deriving DecidableEq, Repr

/-- Observable effects of one pass through the request handler, used to
count disk reads and module loads per request. -/
inductive Event where
  | readFile (path : String)
  | transformHtml (url : String)
  | loadDevModule (path : String)
  | importProdBundle
  | invokeRender
deriving DecidableEq, Repr

/-! ## Embedding of src/entry-server.tsx -/

/-- The inner SSR pipeline that the third-party
`createRequestHandler` runs for a request: router creation, route
matching, loader execution and `renderToString`.  It either produces the
rendered HTML string or throws (modelled as `Except.error` carrying the
diagnostic text of the thrown error, `error.stack` if available else
`String(error)`).  A route loader rejection surfaces here as the error
case. -/
def SsrPipeline : Type :=
  SynthRequest → Except String String

/-- The handler invocation of src/entry-server.tsx lines 119 to 135: on
success the callback wraps the HTML produced by `renderToString` in a
`Response` with status 200 and Content-Type text/html; a throw anywhere
inside propagates out. -/
def ssrHandler (pipeline : SsrPipeline) (request : SynthRequest) :
    Except String WebResponse :=
  (pipeline request).map (fun html => ⟨200, some "text/html", html⟩)

/-- The error fragment built by the catch block of src/entry-server.tsx
line 145. -/
def renderErrorHtml (errorMessage : String) : String :=
  "<div><h1>Server Error</h1><pre>" ++ errorMessage ++ "</pre></div>"

/-- The exported `render` function of src/entry-server.tsx lines 109 to
147: run the request handler and return `response.text()`; the
surrounding try/catch converts ANY thrown error (including a route
loader rejection) into an error HTML fragment, so `render` itself never
throws. -/
def render (pipeline : SsrPipeline) (request : SynthRequest) : String :=
  match ssrHandler pipeline request with
  | .ok response => response.body
  | .error errorMessage => renderErrorHtml errorMessage

/-! ## Embedding of server.ts -/

/-- The slice of `process.env` read by server.ts. -/
structure ProcessEnv where
  NODE_ENV : Option String
  PORT : Option String
deriving DecidableEq, Repr

/-- server.ts line 8: `const isProd = process.env.NODE_ENV === "production"`. -/
def isProd (env : ProcessEnv) : Bool :=
  env.NODE_ENV == some "production"

/-- The expression `process.env.PORT || 3000` (server.ts lines 78, 92,
127): an unset or empty PORT variable is falsy in JavaScript, so it
defaults to 3000. -/
def portOf (env : ProcessEnv) : String :=
  match env.PORT with
  | some p => if p = "" then "3000" else p
  | none => "3000"

/-- The Vite dev server handle used by the development branch:
`transformIndexHtml` rewrites the template for the requested URL (and may
throw), and `ssrLoadModule` loads src/entry-server.tsx on the fly (it may
throw; on success the loaded module exposes the `render` embedded above,
driven by an inner pipeline). -/
structure ViteDevServer where
  transformIndexHtml : String → String → Except String String
  ssrLoadModule : Except String SsrPipeline

/-- The process-level state the catch-all handler of server.ts closes
over: the environment, the module-level `vite` variable (null unless
`initializeVite` created a dev server), the filesystem (`readFileSync`:
path to contents, or a thrown error), and the result of
`await import("./dist/server/entry-server.js")` (which may throw; on
success the bundle exposes the `render` embedded above, driven by an
inner pipeline). -/
structure ServerEnv where
  procEnv : ProcessEnv
  vite : Option ViteDevServer
  fsRead : String → Except String String
  prodServerBundle : Except String SsrPipeline

/-- server.ts lines 78 and 92: the `Request` object handed to the render
function is built from the fixed localhost origin, the port variable and
the original URL alone. -/
def synthesizeRequest (port url : String) : SynthRequest :=
  ⟨"http://localhost:" ++ port ++ url⟩

/-- The placeholder token substituted at server.ts line 103. -/
def appHtmlPlaceholder : String :=
  "<!--app-html-->"

/-- The 500 error page template of server.ts lines 113 to 121. -/
def errorPage (errorMessage : String) : String :=
  "\n      <html>\n        <head><title>Server Error</title></head>\n        <body>\n          <h1>Server Error</h1>\n          <pre>" ++ errorMessage ++ "</pre>\n        </body>\n      </html>\n    "

/-- The development branch of the catch-all handler (server.ts lines 66
to 81): read index.html, transform it through Vite, load the server
entry module on the fly, synthesize the request and render.  Returns the
template and app HTML on success, the thrown error otherwise, paired
with the trace of effects performed. -/
def devBranch (env : ServerEnv) (vite : ViteDevServer) (url port : String) :
    Except String (String × String) × List Event :=
  match env.fsRead "index.html" with
  | .error e => (.error e, [.readFile "index.html"])
  | .ok template =>
    match vite.transformIndexHtml url template with
    | .error e => (.error e, [.readFile "index.html", .transformHtml url])
    | .ok template2 =>
      match vite.ssrLoadModule with
      | .error e =>
        (.error e,
         [.readFile "index.html", .transformHtml url,
          .loadDevModule "/src/entry-server.tsx"])
      | .ok devPipeline =>
        let request := synthesizeRequest port url
        let appHtml := render devPipeline request
        (.ok (template2, appHtml),
         [.readFile "index.html", .transformHtml url,
          .loadDevModule "/src/entry-server.tsx", .invokeRender])

/-- The production branch of the catch-all handler (server.ts lines 82
to 96): read dist/client/index.html (from disk, inside the handler, on
every request), import the prebuilt server bundle, synthesize the
request and render. -/
def prodBranch (env : ServerEnv) (url port : String) :
    Except String (String × String) × List Event :=
  match env.fsRead "dist/client/index.html" with
  | .error e => (.error e, [.readFile "dist/client/index.html"])
  | .ok template =>
    match env.prodServerBundle with
    | .error e =>
      (.error e, [.readFile "dist/client/index.html", .importProdBundle])
    | .ok prodPipeline =>
      let request := synthesizeRequest port url
      let appHtml := render prodPipeline request
      (.ok (template, appHtml),
       [.readFile "dist/client/index.html", .importProdBundle, .invokeRender])

/-- The branch condition of server.ts line 66,
`if (!isProd && vite) { ...dev... } else { ...prod... }`: the
development branch requires BOTH a non-production flag and a non-null
Vite handle. -/
def chooseBranch (env : ServerEnv) (url port : String) :
    Except String (String × String) × List Event :=
  match env.vite, isProd env.procEnv with
  | some vite, false => devBranch env vite url port
  | some _, true => prodBranch env url port
  | none, _ => prodBranch env url port

/-- The tail of the catch-all handler: on success, substitute the app
HTML for the placeholder (server.ts line 103) and respond 200 text/html
(line 106); on a thrown error, respond 500 with the error page
(lines 112 to 121). -/
def finishRequest (branchResult : Except String (String × String) × List Event) :
    HttpResponse × List Event :=
  match branchResult with
  | (.ok (template, appHtml), events) =>
    (⟨200, some "text/html",
      strReplaceFirst template appHtmlPlaceholder appHtml⟩, events)
  | (.error e, events) => (⟨500, none, errorPage e⟩, events)

/-- The full catch-all handler body of server.ts lines 60 to 123 for one
request, returning the response and the trace of effects. -/
def handleRequest (env : ServerEnv) (req : IncomingRequest) :
    HttpResponse × List Event :=
  finishRequest (chooseBranch env req.originalUrl (portOf env.procEnv))

/-- The route registration `app.get("*", handler)` of server.ts line 60:
Express dispatches a request to this handler only when the method is
GET; the path pattern "*" places no constraint on the path.  `none`
means no route matched and Express falls through to its default
handling.  (The compression and static-file middlewares are outside this
model.) -/
def appRoute (env : ServerEnv) (req : IncomingRequest) :
    Option (HttpResponse × List Event) :=
  if req.method = Method.GET then some (handleRequest env req) else none

/-- The render input synthesized for a request: both branches of the
handler build it the same way from the port variable and
`req.originalUrl` alone. -/
def renderInput (env : ServerEnv) (req : IncomingRequest) : SynthRequest :=
  synthesizeRequest (portOf env.procEnv) req.originalUrl

/-- Number of reads of the file at `path` in an effect trace. -/
def countReads (events : List Event) (path : String) : Nat :=
  events.countP (fun e => decide (e = Event.readFile path))

/-! ## Embedding of src/router.tsx -/

/-- The `defaultOptions.queries` configuration passed to the
`QueryClient` constructor (src/router.tsx lines 23 to 32). -/
structure QueryClientConfig where
  staleTime : Nat
  retry : Nat
deriving DecidableEq, Repr

/-- src/router.tsx lines 24 to 31: staleTime five minutes, retry once. -/
def routerQueryClientConfig : QueryClientConfig :=
  ⟨1000 * 60 * 5, 1⟩

/-- One cached query result: key, value and freshness timestamp
(milliseconds). -/
structure CacheEntry where
  key : String
  value : String
  timestamp : Nat
deriving DecidableEq, Repr

/-- The mutable contents of one `QueryClient` instance. -/
structure QueryClientState where
  entries : List CacheEntry
deriving DecidableEq, Repr

/-- The state of a freshly constructed `QueryClient`: empty. -/
def QueryClientState.new : QueryClientState :=
  ⟨[]⟩

/-- A heap of `QueryClient` instances addressed by allocation id: `new
QueryClient(...)` allocates a fresh id and binds it to the empty state.
This makes object identity explicit so that isolation between instances
can be stated. -/
structure Heap where
  nextId : Nat
  clients : Nat → QueryClientState

/-- The slice of the router object relevant here: the `context`
(src/router.tsx line 38) holds the id of the `QueryClient` the router
was wired to, and the configuration it was constructed with. -/
structure Router where
  queryClientId : Nat
  config : QueryClientConfig
deriving DecidableEq, Repr

/-- The `getRouter` factory of src/router.tsx lines 20 to 57: every call
constructs a NEW `QueryClient` (allocating a fresh heap id bound to the
empty state) and a router whose context carries that client. -/
def getRouter (h : Heap) : Router × Heap :=
  let id := h.nextId
  (⟨id, routerQueryClientConfig⟩,
   ⟨id + 1, fun i => if i = id then QueryClientState.new else h.clients i⟩)

/-- One server-side render call, as in src/entry-server.tsx lines 113 to
116: `createRequestHandler` invokes `createRouter: getRouter`, so a new
router and a new `QueryClient` are constructed for this request; the
route loaders then read and write ONLY that request's client, modelled
by the oracle `loaderWrites` applied to the state of the freshly
allocated client. -/
def serveRender (h : Heap) (loaderWrites : QueryClientState → QueryClientState) :
    Router × Heap :=
  let rh := getRouter h
  let router := rh.1
  let h1 := rh.2
  (router,
   ⟨h1.nextId,
    fun i => if i = router.queryClientId then loaderWrites (h1.clients i)
             else h1.clients i⟩)

/-! ## The query layer (get-or-fetch) -/

/-- Modelled from the spec: the query layer get-or-fetch operation
(`queryClient.ensureQueryData`, invoked by the route loader in
src/routes/repos.$username.tsx line 88) lives in the third-party
TanStack Query dependency and is not under src/.  Spec section 4.4:
`getOrFetch(key, fetchFn, staleTimeMs)` returns the cached value if
present and not expired; otherwise it invokes `fetchFn`, stores the
result with a fresh timestamp, and returns it.  The last component of
the result counts the `fetchFn` invocations this call performed (0 or
1).  An entry is not expired at time `now` when `now < timestamp +
staleTimeMs`. -/
def getOrFetch (c : QueryClientState) (now : Nat) (key : String)
    (fetchFn : Unit → String) (staleTimeMs : Nat) :
    String × QueryClientState × Nat :=
  match c.entries.find? (fun e => e.key == key) with
  | some e =>
    if now < e.timestamp + staleTimeMs then
      (e.value, c, 0)
    else
      let v := fetchFn ()
      (v, ⟨⟨key, v, now⟩ :: c.entries⟩, 1)
  | none =>
    let v := fetchFn ()
    (v, ⟨⟨key, v, now⟩ :: c.entries⟩, 1)

/-! ## Embedding of src/routes/repos.$username.tsx -/

/-- A GitHub repository record, fields as in the interface of
src/routes/repos.$username.tsx lines 10 to 18. -/
structure GitHubRepository where
  id : Nat
  name : String
  description : Option String
  html_url : String
  stargazers_count : Nat
  language : Option String
  updated_at : String
deriving DecidableEq, Repr

/-- The slice of a fetch `Response` the query function reads: status,
statusText, and the JSON body already parsed as a repository list (the
source casts `await response.json()` without validation). -/
structure FetchResponse where
  status : Nat
  statusText : String
  jsonBody : List GitHubRepository
deriving DecidableEq, Repr

/-- Fetch-standard `response.ok`: status in the inclusive range 200 to
299. -/
def FetchResponse.ok (r : FetchResponse) : Bool :=
  decide (200 ≤ r.status) && decide (r.status ≤ 299)

/-- The staleTime of `userReposQuery`
(src/routes/repos.$username.tsx line 53): five minutes. -/
def userReposStaleTime : Nat :=
  1000 * 60 * 5

/-- The `queryFn` of `userReposQuery`
(src/routes/repos.$username.tsx lines 32 to 51), as a function of the
response the external API produced: non-ok with status 404 throws the
not-found error naming the user; any other non-ok status throws the
generic failure message; an ok status returns the parsed list.  The
surrounding try/catch only logs and rethrows, so it is the identity on
this outcome. -/
def userReposQueryFn (username : String) (response : FetchResponse) :
    Except String (List GitHubRepository) :=
  if !response.ok then
    if response.status = 404 then
      .error ("User \"" ++ username ++ "\" not found")
    else
      .error ("Failed to load repos for " ++ username ++ ": " ++
              response.statusText)
  else
    .ok response.jsonBody

/-- The text content of one repository list item
(src/routes/repos.$username.tsx lines 123 to 158), in document order;
`formatDate` abstracts `new Date(u).toLocaleDateString()`. -/
def repoListItemText (formatDate : String → String)
    (repo : GitHubRepository) : String :=
  repo.name ++
  (match repo.description with | some d => d | none => "") ++
  (match repo.language with | some l => l | none => "") ++
  toString repo.stargazers_count ++
  "Updated " ++ formatDate repo.updated_at

/-- The text content of the `ReposPage` component
(src/routes/repos.$username.tsx lines 106 to 161), in document order:
the heading, the count line "Showing N repository/repositories", then
either the empty-state message (when the list is empty) or the list
items. -/
def reposPageText (formatDate : String → String) (username : String)
    (repos : List GitHubRepository) : String :=
  "Repositories of " ++ username ++
  "Showing " ++ toString repos.length ++ " " ++
  (if repos.length = 1 then "repository" else "repositories") ++
  (if repos.length = 0 then
    "No public repositories found for this user."
  else
    String.join (repos.map (repoListItemText formatDate)))

/-! ## Concrete example states used by counterexamples and witnesses -/

/-- A minimal static HTML shell with the placeholder, as produced by the
client build into dist/client/index.html. -/
def exampleTemplate : String :=
  "<html><body><div id=\"root\"><!--app-html--></div></body></html>"

/-- The part of `exampleTemplate` before the placeholder. -/
def exampleTemplateBefore : List Char :=
  ("<html><body><div id=\"root\">").data

/-- The part of `exampleTemplate` after the placeholder. -/
def exampleTemplateAfter : List Char :=
  ("</div></body></html>").data

/-- A production-mode process state whose SSR pipeline succeeds with a
fixed app fragment. -/
def prodOkEnv : ServerEnv :=
  ⟨⟨some "production", none⟩, none,
   fun p => if p = "dist/client/index.html" then .ok exampleTemplate
            else .error "ENOENT",
   .ok (fun _ => .ok "<main>app</main>")⟩

/-- A production-mode process state whose SSR pipeline rejects with the
not-found diagnostic for username doesnotexist123, as a route loader
rejection surfaces it. -/
def prodLoaderFailEnv : ServerEnv :=
  ⟨⟨some "production", none⟩, none,
   fun p => if p = "dist/client/index.html" then .ok exampleTemplate
            else .error "ENOENT",
   .ok (fun _ => .error "Error: User \"doesnotexist123\" not found")⟩

/-- A non-production process state whose Vite handle is null
(initialization did not produce one), with a working prebuilt fallback. -/
def devNoViteEnv : ServerEnv :=
  ⟨⟨none, none⟩, none,
   fun p => if p = "dist/client/index.html" then .ok exampleTemplate
            else .error "ENOENT",
   .ok (fun _ => .ok "<main>app</main>")⟩

/-! ## Lemmas about occurrence counting and first-occurrence replacement -/

theorem isPrefixOf_append_of_isPrefixOf (pat s t : List Char)
    (h : pat.isPrefixOf s = true) : pat.isPrefixOf (s ++ t) = true := by
  rw [List.isPrefixOf_iff_prefix] at h ⊢
  exact h.trans (List.prefix_append s t)

theorem countOcc_le_append_right (a b pat : List Char) :
    countOcc b pat ≤ countOcc (a ++ b) pat := by
  induction a with
  | nil => simp
  | cons c a ih =>
    rw [List.cons_append]
    simp only [countOcc]
    omega

theorem countOcc_le_append_left (a b pat : List Char) :
    countOcc a pat ≤ countOcc (a ++ b) pat := by
  induction a with
  | nil => simp [countOcc]
  | cons c a ih =>
    rw [List.cons_append]
    simp only [countOcc]
    by_cases hpre : pat.isPrefixOf (c :: a) = true
    · rw [if_pos hpre, if_pos]
      · omega
      · exact isPrefixOf_append_of_isPrefixOf pat (c :: a) b hpre
    · rw [if_neg hpre]
      split <;> omega

theorem one_le_countOcc_sandwich (a b pat : List Char) (hp : pat ≠ []) :
    1 ≤ countOcc (a ++ (pat ++ b)) pat := by
  refine le_trans ?_ (countOcc_le_append_right a (pat ++ b) pat)
  cases pat with
  | nil => exact absurd rfl hp
  | cons p ps =>
    rw [List.cons_append]
    simp only [countOcc]
    rw [if_pos]
    · omega
    · rw [← List.cons_append]
      rw [List.isPrefixOf_iff_prefix]
      exact List.prefix_append (p :: ps) b

theorem replaceFirst_sandwich (t1 t2 pat rep : List Char) (hp : pat ≠ [])
    (h1 : countOcc (t1 ++ (pat ++ t2)) pat = 1) :
    replaceFirst (t1 ++ (pat ++ t2)) pat rep = t1 ++ (rep ++ t2) := by
  induction t1 with
  | nil =>
    rw [List.nil_append, List.nil_append]
    cases pat with
    | nil => exact absurd rfl hp
    | cons p ps =>
      rw [List.cons_append]
      simp only [replaceFirst]
      rw [if_pos]
      · rw [← List.cons_append, List.drop_left]
      · rw [← List.cons_append, List.isPrefixOf_iff_prefix]
        exact List.prefix_append (p :: ps) t2
  | cons c t1 ih =>
    rw [List.cons_append] at h1 ⊢
    simp only [replaceFirst]
    by_cases hpre : pat.isPrefixOf (c :: (t1 ++ (pat ++ t2))) = true
    · exfalso
      have hge := one_le_countOcc_sandwich t1 t2 pat hp
      simp only [countOcc, hpre, if_true] at h1
      omega
    · rw [if_neg hpre, List.cons_append]
      have h2 : countOcc (t1 ++ (pat ++ t2)) pat = 1 := by
        simp only [countOcc] at h1
        rw [if_neg hpre] at h1
        omega
      rw [ih h2]

theorem hasOcc_eq_true_iff (s pat : List Char) :
    hasOcc s pat = true ↔ countOcc s pat ≠ 0 := by
  simp [hasOcc]

theorem hasOcc_append_right (a b pat : List Char) (h : hasOcc b pat = true) :
    hasOcc (a ++ b) pat = true := by
  rw [hasOcc_eq_true_iff] at h ⊢
  have := countOcc_le_append_right a b pat
  omega

theorem hasOcc_append_left (a b pat : List Char) (h : hasOcc a pat = true) :
    hasOcc (a ++ b) pat = true := by
  rw [hasOcc_eq_true_iff] at h ⊢
  have := countOcc_le_append_left a b pat
  omega

theorem hasOcc_sandwich (a b pat : List Char) (hp : pat ≠ []) :
    hasOcc (a ++ (pat ++ b)) pat = true := by
  rw [hasOcc_eq_true_iff]
  have := one_le_countOcc_sandwich a b pat hp
  omega

/-! ## Evaluation lemmas for the dispatcher -/

theorem render_of_ok (pipeline : SsrPipeline) (request : SynthRequest)
    (html : String) (h : pipeline request = .ok html) :
    render pipeline request = html := by
  simp [render, ssrHandler, h, Except.map]

theorem render_of_error (pipeline : SsrPipeline) (request : SynthRequest)
    (e : String) (h : pipeline request = .error e) :
    render pipeline request = renderErrorHtml e := by
  simp [render, ssrHandler, h, Except.map]

theorem chooseBranch_of_isProd (env : ServerEnv) (url port : String)
    (h : isProd env.procEnv = true) :
    chooseBranch env url port = prodBranch env url port := by
  cases hv : env.vite with
  | none => simp [chooseBranch, hv]
  | some v => simp [chooseBranch, hv, h]

theorem chooseBranch_of_vite_none (env : ServerEnv) (url port : String)
    (h : env.vite = none) :
    chooseBranch env url port = prodBranch env url port := by
  cases hb : isProd env.procEnv <;> simp [chooseBranch, h, hb]

theorem prodBranch_of_ok (env : ServerEnv) (url port t : String)
    (pipeline : SsrPipeline)
    (hread : env.fsRead "dist/client/index.html" = .ok t)
    (hbundle : env.prodServerBundle = .ok pipeline) :
    prodBranch env url port =
      (.ok (t, render pipeline (synthesizeRequest port url)),
       [.readFile "dist/client/index.html", .importProdBundle,
        .invokeRender]) := by
  simp [prodBranch, hread, hbundle]

theorem countReads_append (a b : List Event) (path : String) :
    countReads (a ++ b) path = countReads a path + countReads b path := by
  simp [countReads, List.countP_append]

theorem countReads_prod_request (env : ServerEnv) (req : IncomingRequest)
    (h : isProd env.procEnv = true) :
    countReads (handleRequest env req).2 "dist/client/index.html" = 1 := by
  rw [handleRequest,
      chooseBranch_of_isProd env req.originalUrl (portOf env.procEnv) h]
  cases hf : env.fsRead "dist/client/index.html" with
  | error e =>
    simp only [prodBranch, hf, finishRequest]
    decide
  | ok t =>
    cases hp : env.prodServerBundle with
    | error e =>
      simp only [prodBranch, hf, hp, finishRequest]
      decide
    | ok pipeline =>
      simp only [prodBranch, hf, hp, finishRequest]
      decide

/-! ## Claim theorems -/

/-- C9: the request object handed to the render function is synthesized
from the original URL path alone on the fixed localhost origin; two
incoming requests to the same dispatcher state with the same original
URL yield the identical render input (and in fact the identical handler
outcome), regardless of method, headers or body. -/
theorem render_input_depends_only_on_path (env : ServerEnv)
    (req1 req2 : IncomingRequest)
    (h : req1.originalUrl = req2.originalUrl) :
    renderInput env req1 = renderInput env req2 ∧
    handleRequest env req1 = handleRequest env req2 := by
  constructor
  · rw [renderInput, renderInput, h]
  · rw [handleRequest, handleRequest, h]

theorem render_input_depends_only_on_path_witness :
    renderInput
        ⟨⟨some "production", some "8080"⟩, none, fun _ => .error "ENOENT",
         .error "no bundle"⟩
        ⟨Method.GET, "/repos/octocat", [("accept", "text/html")], ""⟩ =
      renderInput
        ⟨⟨some "production", some "8080"⟩, none, fun _ => .error "ENOENT",
         .error "no bundle"⟩
        ⟨Method.POST, "/repos/octocat", [], "payload"⟩ ∧
    handleRequest
        ⟨⟨some "production", some "8080"⟩, none, fun _ => .error "ENOENT",
         .error "no bundle"⟩
        ⟨Method.GET, "/repos/octocat", [("accept", "text/html")], ""⟩ =
      handleRequest
        ⟨⟨some "production", some "8080"⟩, none, fun _ => .error "ENOENT",
         .error "no bundle"⟩
        ⟨Method.POST, "/repos/octocat", [], "payload"⟩ :=
  render_input_depends_only_on_path _ _ _ rfl

/-- C4: every render call constructs a fresh `QueryClient`; after two
consecutive render calls the second router holds a different client id,
the state of the second client is exactly what the second request wrote
into an initially empty cache (so nothing written while serving the
first request is observable there), and the second request leaves the
first client untouched. -/
theorem queryClient_per_request_isolation (h : Heap)
    (w1 w2 : QueryClientState → QueryClientState) :
    (serveRender (serveRender h w1).2 w2).1.queryClientId ≠
      (serveRender h w1).1.queryClientId ∧
    (serveRender (serveRender h w1).2 w2).2.clients
        (serveRender (serveRender h w1).2 w2).1.queryClientId =
      w2 QueryClientState.new ∧
    (serveRender (serveRender h w1).2 w2).2.clients
        (serveRender h w1).1.queryClientId =
      (serveRender h w1).2.clients (serveRender h w1).1.queryClientId := by
  refine ⟨?_, ?_, ?_⟩
  · simp [serveRender, getRouter]
  · simp [serveRender, getRouter]
  · simp [serveRender, getRouter]

/-- C2 counterexample: a POST request to the root path is not dispatched
to the SSR handler at all (the only registered route is `app.get("*")`),
refuting the claim that every HTTP method is accepted. -/
theorem catch_all_non_get_counterexample :
    appRoute
      ⟨⟨none, none⟩, none, fun _ => .error "ENOENT", .error "no bundle"⟩
      ⟨Method.POST, "/repos/octocat", [], ""⟩ = none := by
  decide

/-- C2 amended: the catch-all route accepts every request path, but only
the GET method: a GET request to any path is handled by the SSR handler,
and a request with any other method is not dispatched to it. -/
theorem catch_all_get_only (env : ServerEnv) (req : IncomingRequest) :
    (req.method = Method.GET →
      appRoute env req = some (handleRequest env req)) ∧
    (req.method ≠ Method.GET → appRoute env req = none) := by
  constructor
  · intro h
    rw [appRoute, if_pos h]
  · intro h
    rw [appRoute, if_neg h]

theorem catch_all_get_only_witness :
    appRoute
        ⟨⟨none, none⟩, none, fun _ => .error "ENOENT", .error "no bundle"⟩
        ⟨Method.GET, "/any/path", [], ""⟩ =
      some (handleRequest
        ⟨⟨none, none⟩, none, fun _ => .error "ENOENT", .error "no bundle"⟩
        ⟨Method.GET, "/any/path", [], ""⟩) ∧
    appRoute
        ⟨⟨none, none⟩, none, fun _ => .error "ENOENT", .error "no bundle"⟩
        ⟨Method.PUT, "/any/path", [], ""⟩ = none :=
  ⟨(catch_all_get_only _ _).1 rfl, (catch_all_get_only _ _).2 (by decide)⟩

/-- C10: when the Vite handle is null, the dispatcher takes the
production branch even in non-production mode (the development branch
requires both the non-production flag and a non-null handle): the
branch selection equals the production branch, the first effect of the
request is reading dist/client/index.html, and when that read and the
bundle import succeed the prebuilt server bundle is imported. -/
theorem null_vite_takes_prod_branch (env : ServerEnv)
    (req : IncomingRequest) (hvite : env.vite = none)
    (hdev : isProd env.procEnv = false) :
    chooseBranch env req.originalUrl (portOf env.procEnv) =
      prodBranch env req.originalUrl (portOf env.procEnv) ∧
    (∃ rest, (handleRequest env req).2 =
      Event.readFile "dist/client/index.html" :: rest) ∧
    (∀ pipeline t, env.prodServerBundle = .ok pipeline →
      env.fsRead "dist/client/index.html" = .ok t →
      Event.importProdBundle ∈ (handleRequest env req).2) := by
  have hb := chooseBranch_of_vite_none env req.originalUrl
    (portOf env.procEnv) hvite
  refine ⟨hb, ?_, ?_⟩
  · rw [handleRequest, hb]
    cases hf : env.fsRead "dist/client/index.html" with
    | error e =>
      exact ⟨[], by simp [prodBranch, hf, finishRequest]⟩
    | ok t =>
      cases hp : env.prodServerBundle with
      | error e =>
        exact ⟨[.importProdBundle], by simp [prodBranch, hf, hp, finishRequest]⟩
      | ok pipeline =>
        exact ⟨[.importProdBundle, .invokeRender],
          by simp [prodBranch, hf, hp, finishRequest]⟩
  · intro pipeline t hp hf
    rw [handleRequest, hb]
    simp [prodBranch, hf, hp, finishRequest]

theorem null_vite_takes_prod_branch_witness :
    chooseBranch devNoViteEnv "/" (portOf devNoViteEnv.procEnv) =
      prodBranch devNoViteEnv "/" (portOf devNoViteEnv.procEnv) ∧
    (∃ rest, (handleRequest devNoViteEnv ⟨Method.GET, "/", [], ""⟩).2 =
      Event.readFile "dist/client/index.html" :: rest) ∧
    (∀ pipeline t, devNoViteEnv.prodServerBundle = .ok pipeline →
      devNoViteEnv.fsRead "dist/client/index.html" = .ok t →
      Event.importProdBundle ∈
        (handleRequest devNoViteEnv ⟨Method.GET, "/", [], ""⟩).2) :=
  null_vite_takes_prod_branch devNoViteEnv ⟨Method.GET, "/", [], ""⟩ rfl rfl

/-- C3 counterexample: in production mode, serving two requests reads
dist/client/index.html from disk twice — once per request — refuting
the claim that the shell is read exactly once and reused from memory. -/
theorem prod_template_read_twice_counterexample :
    countReads ((handleRequest prodOkEnv ⟨Method.GET, "/", [], ""⟩).2 ++
      (handleRequest prodOkEnv ⟨Method.GET, "/repos/tanstack", [], ""⟩).2)
      "dist/client/index.html" = 2 := by
  decide

/-- C3 amended: in production mode the prebuilt shell is read from disk
on EVERY request (the `readFileSync` sits inside the handler body and
its result is never cached), so serving n requests performs exactly n
reads of dist/client/index.html; only the per-request Vite transform
step is specific to development. -/
theorem prod_template_read_every_request (env : ServerEnv)
    (reqs : List IncomingRequest) (h : isProd env.procEnv = true) :
    countReads ((reqs.map (fun r => (handleRequest env r).2)).flatten)
      "dist/client/index.html" = reqs.length := by
  induction reqs with
  | nil => rfl
  | cons r rs ih =>
    rw [List.map_cons, List.flatten_cons, countReads_append,
        countReads_prod_request env r h, ih, List.length_cons]
    omega

theorem prod_template_read_every_request_witness :
    countReads
      ((([⟨Method.GET, "/", [], ""⟩,
          ⟨Method.GET, "/repos/tanstack", [], ""⟩] :
            List IncomingRequest).map
        (fun r => (handleRequest prodOkEnv r).2)).flatten)
      "dist/client/index.html" =
      ([⟨Method.GET, "/", [], ""⟩,
        ⟨Method.GET, "/repos/tanstack", [], ""⟩] :
          List IncomingRequest).length :=
  prod_template_read_every_request prodOkEnv _ rfl

/-- C7: for a request whose render pipeline succeeds (as it does for
every defined static route), the dispatcher responds 200 text/html and
the placeholder token no longer occurs in the body: it was substituted
by the rendered fragment.  The hypotheses say the template contains the
placeholder exactly once and the substituted document is free of it. -/
theorem static_route_placeholder_resolved (env : ServerEnv)
    (req : IncomingRequest) (t appHtml : String) (t1 t2 : List Char)
    (pipeline : SsrPipeline)
    (hprod : isProd env.procEnv = true)
    (hread : env.fsRead "dist/client/index.html" = .ok t)
    (hbundle : env.prodServerBundle = .ok pipeline)
    (hrender : pipeline
      (synthesizeRequest (portOf env.procEnv) req.originalUrl) = .ok appHtml)
    (hsplit : t.data = t1 ++ (appHtmlPlaceholder.data ++ t2))
    (hone : countOcc t.data appHtmlPlaceholder.data = 1)
    (hclean : countOcc (t1 ++ (appHtml.data ++ t2))
      appHtmlPlaceholder.data = 0) :
    (handleRequest env req).1.status = 200 ∧
    (handleRequest env req).1.contentType = some "text/html" ∧
    countOcc (handleRequest env req).1.body.data
      appHtmlPlaceholder.data = 0 := by
  have hh : handleRequest env req =
      (⟨200, some "text/html",
        strReplaceFirst t appHtmlPlaceholder appHtml⟩,
       [.readFile "dist/client/index.html", .importProdBundle,
        .invokeRender]) := by
    rw [handleRequest,
        chooseBranch_of_isProd env req.originalUrl (portOf env.procEnv) hprod,
        prodBranch_of_ok env req.originalUrl (portOf env.procEnv) t pipeline
          hread hbundle,
        render_of_ok pipeline
          (synthesizeRequest (portOf env.procEnv) req.originalUrl)
          appHtml hrender]
    rfl
  rw [hh]
  refine ⟨rfl, rfl, ?_⟩
  have hb : (strReplaceFirst t appHtmlPlaceholder appHtml).data =
      replaceFirst t.data appHtmlPlaceholder.data appHtml.data := rfl
  rw [hb, hsplit,
      replaceFirst_sandwich t1 t2 appHtmlPlaceholder.data appHtml.data
        (by decide) (hsplit ▸ hone)]
  exact hclean

theorem static_route_placeholder_resolved_witness :
    (handleRequest prodOkEnv ⟨Method.GET, "/", [], ""⟩).1.status = 200 ∧
    (handleRequest prodOkEnv ⟨Method.GET, "/", [], ""⟩).1.contentType =
      some "text/html" ∧
    countOcc (handleRequest prodOkEnv ⟨Method.GET, "/", [], ""⟩).1.body.data
      appHtmlPlaceholder.data = 0 :=
  static_route_placeholder_resolved prodOkEnv ⟨Method.GET, "/", [], ""⟩
    exampleTemplate "<main>app</main>" exampleTemplateBefore
    exampleTemplateAfter (fun _ => .ok "<main>app</main>")
    rfl rfl rfl rfl (by decide) (by decide) (by decide)

set_option maxRecDepth 8192 in
/-- C1 counterexample: for a request whose route loader rejects with the
not-found diagnostic for username doesnotexist123, the dispatcher
responds with status 200 — not 500 — and the diagnostic text reaches the
body through the error fragment the render function itself produced, so
the failure did NOT propagate uncaught past the render function. -/
theorem loader_failure_status_counterexample :
    (handleRequest prodLoaderFailEnv
      ⟨Method.GET, "/repos/doesnotexist123", [], ""⟩).1.status = 200 ∧
    strHasOcc (handleRequest prodLoaderFailEnv
        ⟨Method.GET, "/repos/doesnotexist123", [], ""⟩).1.body
      "User \"doesnotexist123\" not found" = true := by
  decide

/-- C1 amended: when a route loader rejects, the failure is caught
INSIDE the render function (src/entry-server.tsx lines 140 to 146),
which resolves with an error HTML fragment embedding the diagnostic
text; the dispatcher then substitutes that fragment into the shell and
responds with status 200, its own catch path staying unused. -/
theorem loader_failure_caught_by_render (env : ServerEnv)
    (req : IncomingRequest) (t e : String) (t1 t2 : List Char)
    (pipeline : SsrPipeline)
    (hprod : isProd env.procEnv = true)
    (hread : env.fsRead "dist/client/index.html" = .ok t)
    (hbundle : env.prodServerBundle = .ok pipeline)
    (hfail : pipeline
      (synthesizeRequest (portOf env.procEnv) req.originalUrl) = .error e)
    (hsplit : t.data = t1 ++ (appHtmlPlaceholder.data ++ t2))
    (hone : countOcc t.data appHtmlPlaceholder.data = 1)
    (hne : e.data ≠ []) :
    render pipeline (synthesizeRequest (portOf env.procEnv) req.originalUrl) =
      renderErrorHtml e ∧
    (handleRequest env req).1.status = 200 ∧
    strHasOcc (handleRequest env req).1.body e = true := by
  have hr := render_of_error pipeline
    (synthesizeRequest (portOf env.procEnv) req.originalUrl) e hfail
  have hh : handleRequest env req =
      (⟨200, some "text/html",
        strReplaceFirst t appHtmlPlaceholder (renderErrorHtml e)⟩,
       [.readFile "dist/client/index.html", .importProdBundle,
        .invokeRender]) := by
    rw [handleRequest,
        chooseBranch_of_isProd env req.originalUrl (portOf env.procEnv) hprod,
        prodBranch_of_ok env req.originalUrl (portOf env.procEnv) t pipeline
          hread hbundle, hr]
    rfl
  refine ⟨hr, ?_, ?_⟩
  · rw [hh]
  · rw [hh]
    show strHasOcc
      (strReplaceFirst t appHtmlPlaceholder (renderErrorHtml e)) e = true
    rw [strHasOcc]
    have hb : (strReplaceFirst t appHtmlPlaceholder (renderErrorHtml e)).data =
        replaceFirst t.data appHtmlPlaceholder.data
          (renderErrorHtml e).data := rfl
    rw [hb, hsplit,
        replaceFirst_sandwich t1 t2 appHtmlPlaceholder.data
          (renderErrorHtml e).data (by decide) (hsplit ▸ hone)]
    apply hasOcc_append_right
    apply hasOcc_append_left
    have hd : (renderErrorHtml e).data =
        ("<div><h1>Server Error</h1><pre>").data ++
          (e.data ++ ("</pre></div>").data) := by
      simp [renderErrorHtml, String.data_append, List.append_assoc]
    rw [hd]
    exact hasOcc_sandwich _ _ _ hne

theorem loader_failure_caught_by_render_witness :
    render (fun _ => .error "Error: User \"doesnotexist123\" not found")
        (synthesizeRequest (portOf prodLoaderFailEnv.procEnv)
          "/repos/doesnotexist123") =
      renderErrorHtml "Error: User \"doesnotexist123\" not found" ∧
    (handleRequest prodLoaderFailEnv
      ⟨Method.GET, "/repos/doesnotexist123", [], ""⟩).1.status = 200 ∧
    strHasOcc (handleRequest prodLoaderFailEnv
        ⟨Method.GET, "/repos/doesnotexist123", [], ""⟩).1.body
      "Error: User \"doesnotexist123\" not found" = true :=
  loader_failure_caught_by_render prodLoaderFailEnv
    ⟨Method.GET, "/repos/doesnotexist123", [], ""⟩
    exampleTemplate "Error: User \"doesnotexist123\" not found"
    exampleTemplateBefore exampleTemplateAfter
    (fun _ => .error "Error: User \"doesnotexist123\" not found")
    rfl rfl rfl rfl (by decide) (by decide) (by decide)

/-- C6: the repository query function throws the not-found message
naming the user exactly on a 404 response, throws the generic fetch
failure message on any other non-success status, returns the parsed
list exactly on a success status, and the two failure messages are
distinct for every username and status text. -/
theorem userReposQueryFn_status_taxonomy (username : String)
    (response : FetchResponse) :
    (response.status = 404 →
      userReposQueryFn username response =
        .error ("User \"" ++ username ++ "\" not found")) ∧
    (response.ok = false → response.status ≠ 404 →
      userReposQueryFn username response =
        .error ("Failed to load repos for " ++ username ++ ": " ++
          response.statusText)) ∧
    (response.ok = true →
      userReposQueryFn username response = .ok response.jsonBody) ∧
    (∀ st, ("User \"" ++ username ++ "\" not found") ≠
      ("Failed to load repos for " ++ username ++ ": " ++ st)) := by
  refine ⟨?_, ?_, ?_, ?_⟩
  · intro h
    have hok : response.ok = false := by
      simp [FetchResponse.ok, h]
    simp [userReposQueryFn, hok, h]
  · intro hok h
    simp [userReposQueryFn, hok, h]
  · intro hok
    simp [userReposQueryFn, hok]
  · intro st h
    have hL : ("User \"" ++ username ++ "\" not found").data.head? =
        some 'U' := rfl
    have hR : ("Failed to load repos for " ++ username ++ ": " ++
        st).data.head? = some 'F' := rfl
    have h2 : some 'U' = some 'F' := by rw [← hL, ← hR, h]
    exact absurd h2 (by decide)

theorem userReposQueryFn_status_taxonomy_witness :
    userReposQueryFn "doesnotexist123" ⟨404, "Not Found", []⟩ =
      .error "User \"doesnotexist123\" not found" ∧
    userReposQueryFn "octocat" ⟨500, "Internal Server Error", []⟩ =
      .error "Failed to load repos for octocat: Internal Server Error" ∧
    userReposQueryFn "octocat" ⟨200, "OK", []⟩ = .ok [] :=
  ⟨(userReposQueryFn_status_taxonomy "doesnotexist123"
      ⟨404, "Not Found", []⟩).1 rfl,
   (userReposQueryFn_status_taxonomy "octocat"
      ⟨500, "Internal Server Error", []⟩).2.1 (by decide) (by decide),
   (userReposQueryFn_status_taxonomy "octocat"
      ⟨200, "OK", []⟩).2.2.1 (by decide)⟩

/-- C5: spec-modelled get-or-fetch idempotence — starting from a cache
without the key, calling `getOrFetch` twice with the same key, the
second call within the staleness window of the first, invokes the
underlying fetch function exactly once in total; the second call
returns the cached value (even with a different fetch function) and
leaves the cache unchanged. -/
theorem getOrFetch_fetches_once_within_stale_window
    (c : QueryClientState) (t1 t2 staleTimeMs : Nat) (key : String)
    (f1 f2 : Unit → String)
    (hnone : c.entries.find? (fun e => e.key == key) = none)
    (hwin : t2 < t1 + staleTimeMs) :
    (getOrFetch c t1 key f1 staleTimeMs).2.2 +
      (getOrFetch (getOrFetch c t1 key f1 staleTimeMs).2.1 t2 key f2
        staleTimeMs).2.2 = 1 ∧
    (getOrFetch (getOrFetch c t1 key f1 staleTimeMs).2.1 t2 key f2
        staleTimeMs).1 = (getOrFetch c t1 key f1 staleTimeMs).1 ∧
    (getOrFetch (getOrFetch c t1 key f1 staleTimeMs).2.1 t2 key f2
        staleTimeMs).2.1 = (getOrFetch c t1 key f1 staleTimeMs).2.1 := by
  have h1 : getOrFetch c t1 key f1 staleTimeMs =
      (f1 (), ⟨⟨key, f1 (), t1⟩ :: c.entries⟩, 1) := by
    simp [getOrFetch, hnone]
  have h2 : getOrFetch (⟨⟨key, f1 (), t1⟩ :: c.entries⟩ : QueryClientState)
      t2 key f2 staleTimeMs =
      (f1 (), ⟨⟨key, f1 (), t1⟩ :: c.entries⟩, 0) := by
    simp [getOrFetch, List.find?, hwin]
  rw [h1]
  rw [show ((f1 (), (⟨⟨key, f1 (), t1⟩ :: c.entries⟩ : QueryClientState),
    1) : String × QueryClientState × Nat).2.1 =
      (⟨⟨key, f1 (), t1⟩ :: c.entries⟩ : QueryClientState) from rfl, h2]
  exact ⟨rfl, rfl, rfl⟩

theorem getOrFetch_fetches_once_within_stale_window_witness :
    (getOrFetch QueryClientState.new 0 "githubRepos:octocat"
      (fun _ => "repos-page-1") userReposStaleTime).2.2 +
      (getOrFetch (getOrFetch QueryClientState.new 0 "githubRepos:octocat"
          (fun _ => "repos-page-1") userReposStaleTime).2.1 1000
        "githubRepos:octocat" (fun _ => "repos-page-2")
        userReposStaleTime).2.2 = 1 ∧
    (getOrFetch (getOrFetch QueryClientState.new 0 "githubRepos:octocat"
        (fun _ => "repos-page-1") userReposStaleTime).2.1 1000
      "githubRepos:octocat" (fun _ => "repos-page-2")
      userReposStaleTime).1 =
      (getOrFetch QueryClientState.new 0 "githubRepos:octocat"
        (fun _ => "repos-page-1") userReposStaleTime).1 ∧
    (getOrFetch (getOrFetch QueryClientState.new 0 "githubRepos:octocat"
        (fun _ => "repos-page-1") userReposStaleTime).2.1 1000
      "githubRepos:octocat" (fun _ => "repos-page-2")
      userReposStaleTime).2.1 =
      (getOrFetch QueryClientState.new 0 "githubRepos:octocat"
        (fun _ => "repos-page-1") userReposStaleTime).2.1 :=
  getOrFetch_fetches_once_within_stale_window QueryClientState.new 0 1000
    userReposStaleTime "githubRepos:octocat" (fun _ => "repos-page-1")
    (fun _ => "repos-page-2") rfl (by decide)

/-- C8: when the repository list is empty, the rendered page text
contains "0 repositories" (from the count line) and the empty-state
message, for every username and date formatter. -/
theorem reposPage_empty_list_text (formatDate : String → String)
    (username : String) :
    strHasOcc (reposPageText formatDate username []) "0 repositories" =
      true ∧
    strHasOcc (reposPageText formatDate username [])
      "No public repositories found for this user." = true := by
  have hdata : (reposPageText formatDate username []).data =
      ("Repositories of ").data ++ (username.data ++
        ("Showing " ++ toString (0 : Nat) ++ " " ++ "repositories" ++
          "No public repositories found for this user.").data) := by
    simp [reposPageText, String.data_append, List.append_assoc]
  constructor
  · rw [strHasOcc, hdata]
    apply hasOcc_append_right
    apply hasOcc_append_right
    decide
  · rw [strHasOcc, hdata]
    apply hasOcc_append_right
    apply hasOcc_append_right
    decide
